import Mathlib

/-!
# Repsense — verification of the spec against the code

Shallow embedding of the Repsense repository (a fitness web application:
CSV workout-history upload, profile aggregation, LLM routine generation,
routine history UI) together with proofs settling the specification's
claims.

Two kinds of definitions appear below:

* definitions translated directly from the TypeScript frontend sources
  (`frontend/lib/api.ts`, `frontend/lib/mockChat.ts`,
  `frontend/app/routines/page.tsx`);
* definitions of the backend `agentic` pipeline (CSV normalizer, profile
  aggregator, intent pipeline, feedback resolver), whose Python sources
  are not part of this tree; those are modelled from the spec, and each
  such definition says so in its doc comment.
-/

namespace Repsense

/-! ## Frontend: `getRoutine` (frontend/lib/api.ts) -/

/-- An HTTP response as `getRoutine` observes it: the numeric status and
the `routine` field of the decoded JSON body (the routine object is
abstracted to a string payload; `none` models a `null` routine field). -/
structure HttpResponse where
  status : Nat
  routineBody : Option String
deriving DecidableEq

/-- The `Response.ok` predicate of the Fetch API: status in the inclusive
range 200–299. -/
def respOk (status : Nat) : Bool := 200 ≤ status && status < 300

/-- Result of a frontend API call: either a returned value or a thrown
`Error` carrying its message string. -/
inductive FetchResult (α : Type) where
  | ok (value : α)
  | thrown (msg : String)
deriving DecidableEq

/-- Function `getRoutine` from `frontend/lib/api.ts` (lines 257–276), as a function
of the fetched response: throw `Error("auth")` on status 401 or 403,
return `null` on any other non-ok status, otherwise return `data.routine`. -/
def getRoutine (res : HttpResponse) : FetchResult (Option String) :=
  if res.status == 401 || res.status == 403 then .thrown "auth"
  else if !(respOk res.status) then .ok none
  else .ok res.routineBody

/-! ## Frontend: routine-history titles (frontend/app/routines/page.tsx) -/

/-- A routine summary row as the routines page receives it
(`RoutineSummary` in `frontend/lib/api.ts`). `days_per_week` and
`focus_muscles` are optional fields. -/
structure RoutineSummary where
  id : String
  created_at : String
  title : String
  goal : String
  days_per_week : Option Int
  focus_muscles : Option (List String)
deriving DecidableEq

/-- The expression `routine.title || "Generated Routine"`: the empty string is the only
falsy value a string-typed title can take. -/
def effectiveTitle (r : RoutineSummary) : String :=
  if r.title = "" then "Generated Routine" else r.title

/-- The `titleCounts` reduce on the routines page: how many loaded
routines share the given effective title. -/
def titleCount (routines : List RoutineSummary) (t : String) : Nat :=
  (routines.filter (fun r => effectiveTitle r == t)).length

/-- The expression `routine.focus_muscles?.slice(0, 2).join("/") || "General"`. -/
def musclesLabel (r : RoutineSummary) : String :=
  match r.focus_muscles with
  | none => "General"
  | some ms =>
    let s := String.intercalate "/" (ms.take 2)
    if s = "" then "General" else s

/-- The expression `routine.days_per_week != null ? ... + "d/wk" : "d/wk?"`. -/
def daysLabel (r : RoutineSummary) : String :=
  match r.days_per_week with
  | some d => toString d ++ "d/wk"
  | none => "d/wk?"

/-- Function `formatContextTitle` from the routines page (lines 21–34):
`new Date(...).toLocaleDateString()` is locale-dependent, so the date
renderer is passed in as `fmtDate`. -/
def formatContextTitle (fmtDate : String → String)
    (routines : List RoutineSummary) (r : RoutineSummary) : String :=
  let t := effectiveTitle r
  if titleCount routines t ≤ 1 then t
  else t ++ " · " ++ musclesLabel r ++ " · " ++ daysLabel r ++ " · " ++
    fmtDate r.created_at

/-! ## Frontend: mock chat replies (frontend/lib/mockChat.ts) -/

/-- The four canned assistant replies, verbatim from `mockChat.ts`. -/
def mockReplies : List String :=
  ["Based on your training data, your bench press has been trending upward over the last 4 weeks. Your estimated 1RM is around 225 lbs. To keep progressing, I\x27d suggest adding a secondary bench variation — something like close-grip or paused bench — on your upper pull day. This gives you extra pressing volume without overloading your recovery.\n\nHere\x27s what I\x27d recommend:\n- **Main bench day**: 4x5 at 85% 1RM\n- **Secondary day**: 3x8 close-grip at 70%\n- Keep rest periods at 2-3 minutes for the heavy sets.",
   "Looking at your squat history, you\x27ve been averaging about 12 working sets per week for quads. That\x27s solid for maintenance, but if you want to push strength, we could bump that to 15-16 sets.\n\nYour best recent session was 315 lbs for 3 reps — that puts your estimated 1RM around 335. Here\x27s a progression plan:\n1. Week 1-2: 4x4 at 290 lbs\n2. Week 3-4: 4x3 at 305 lbs\n3. Week 5: Test — work up to a heavy triple\n\nMake sure you\x27re getting 7+ hours of sleep. Your data shows performance dips correlate with shorter rest periods between sessions.",
   "Great question! Your training consistency has been excellent — 4.2 sessions per week over 12 weeks is above average. Based on the exercises you\x27ve been doing, your program is well-balanced between push, pull, and legs.\n\nOne thing I notice is that your rear delt and upper back work is relatively low compared to your pressing volume. I\x27d recommend adding:\n- **Face pulls**: 3x15-20 twice per week\n- **Band pull-aparts**: 2x25 as a warm-up\n\nThis will help balance your shoulders and potentially improve your bench press too.",
   "I\x27ve put together a new 4-day strength program based on your data. It builds on your existing compound lift numbers with strategic progressive overload and proper warmup sets.\n\nView your updated routine here: [routine:1]\n\nThe program includes dedicated warmup sets before your working weight, and I\x27ve added failure sets on the last exercise of each session to push your limits. Let me know if you want me to adjust anything."]

/-- One call of `getMockReply` given the module-level `replyIndex`: it
resolves with `mockReplies[replyIndex % mockReplies.length]` and leaves
the counter incremented. -/
def getMockReply (replyIndex : Nat) : String × Nat :=
  (mockReplies.getD (replyIndex % mockReplies.length) "", replyIndex + 1)

/-- The value of the module-level `replyIndex` after `k` calls to
`getMockReply` since module load (it starts at `0`). -/
def replyIndexAfter : Nat → Nat
  | 0 => 0
  | k + 1 => (getMockReply (replyIndexAfter k)).2

/-- The string the `k`-th call of `getMockReply` resolves to (calls are
numbered from 1). -/
def nthMockReply (k : Nat) : String :=
  (getMockReply (replyIndexAfter (k - 1))).1

/-! ## Agentic pipeline: CSV normalizer (modelled from the spec)

The Python sources `agentic/src/data_loader.py` / `data_analyzer.py` are
not part of this tree (only the `agentic` README and the frontend are),
so the normalizer and aggregator are modelled from the spec, §4.1–4.2. -/

/-- Decimal digits of a character list read as a natural number
(assuming every character is a digit). -/
def digitsToNat (cs : List Char) : Nat :=
  cs.foldl (fun n c => n * 10 + (c.toNat - 48)) 0

/-- Parse a non-empty all-digit character list as a natural number;
anything else is non-numeric. -/
def parseNatChars (cs : List Char) : Option Nat :=
  if !cs.isEmpty && cs.all Char.isDigit then some (digitsToNat cs) else none

/-- Parse a string as a natural number (used for the `reps` and
`set_index` CSV cells). -/
def parseNat (s : String) : Option Nat := parseNatChars s.data

/-- Split a character list on every occurrence of `sep`. -/
def splitOnChar (sep : Char) : List Char → List (List Char)
  | [] => [[]]
  | c :: cs =>
    let rest := splitOnChar sep cs
    if c = sep then [] :: rest
    else
      match rest with
      | [] => [[c]]
      | r :: rs => (c :: r) :: rs

/-- Parse a string as an unsigned decimal number (used for the
`weight_kg` CSV cell): digits with at most one decimal point. -/
def parseDecimal (s : String) : Option ℚ :=
  match splitOnChar '.' s.data with
  | [w] => (parseNatChars w).map (fun n => (n : ℚ))
  | [w, f] =>
    match parseNatChars w, parseNatChars f with
    | some wn, some fn => some ((wn : ℚ) + (fn : ℚ) / ((10 : ℚ) ^ f.length))
    | _, _ => none
  | _ => none

/-- Modelled from the spec: a `WorkoutSet` record — "exercise name,
timestamp, weight, reps, set index. Immutable once parsed" (§3), with
both timestamps of the CSV row kept as uninterpreted strings. -/
structure WorkoutSet where
  exercise : String
  startTime : String
  endTime : String
  weight : ℚ
  reps : Nat
  setIndex : Nat
deriving DecidableEq

/-- Modelled from the spec: the required CSV columns of §4.1 —
`exercise_title, start_time, end_time, weight_kg, reps, set_index`. -/
def requiredColumns : List String :=
  ["exercise_title", "start_time", "end_time", "weight_kg", "reps", "set_index"]

/-- Modelled from the spec: the normalizer's fatal error — §7:
"`MalformedInput` (missing required CSV columns — fatal, surfaced to
caller)". It carries the list of missing columns. -/
inductive NormalizeError where
  | MalformedInput (missing : List String)
deriving DecidableEq

/-- A CSV input: the header row (column names) and the data rows, each a
list of cell strings. -/
structure CSV where
  header : List String
  rows : List (List String)
deriving DecidableEq

/-- The required columns absent from a header. -/
def missingColumns (header : List String) : List String :=
  requiredColumns.filter (fun c => !header.contains c)

/-- Modelled from the spec: parse one CSV data row into a `WorkoutSet`;
`none` when a required cell is absent or its `weight_kg` / `reps` /
`set_index` value is non-numeric (§4.1: such rows are "skipped with a
warning count, not a fatal error"). -/
def parseRow (header row : List String) : Option WorkoutSet := do
  let iEx ← header.findIdx? (· == "exercise_title")
  let iSt ← header.findIdx? (· == "start_time")
  let iEn ← header.findIdx? (· == "end_time")
  let iW ← header.findIdx? (· == "weight_kg")
  let iR ← header.findIdx? (· == "reps")
  let iSi ← header.findIdx? (· == "set_index")
  let ex ← row.get? iEx
  let st ← row.get? iSt
  let en ← row.get? iEn
  let w ← parseDecimal (← row.get? iW)
  let r ← parseNat (← row.get? iR)
  let si ← parseNat (← row.get? iSi)
  pure ⟨ex, st, en, w, r, si⟩

/-- Modelled from the spec, §4.1: the CSV normalizer. It "validates
column presence; fails with a `MalformedInput` error if required columns
are missing"; otherwise it returns the `WorkoutSet` records of the
parseable rows together with the count of skipped (unparseable) rows. -/
def normalizeCSV (csv : CSV) : Except NormalizeError (List WorkoutSet × Nat) :=
  match missingColumns csv.header with
  | [] => .ok (csv.rows.filterMap (parseRow csv.header),
      (csv.rows.filter (fun r => (parseRow csv.header r).isNone)).length)
  | ms => .error (.MalformedInput ms)

/-! ## Agentic pipeline: profile aggregator (modelled from the spec) -/

/-- Modelled from the spec, §4.2: estimated one-rep-max of a single set,
"estimated 1RM via `weight × (1 + reps/30)`" (Epley-style). -/
def est1RM (weight : ℚ) (reps : Nat) : ℚ :=
  weight * (1 + (reps : ℚ) / 30)

/-- Rounding a rational to two decimal places (half rounds up), the
rendering the spec uses when it writes `100×(1+5/30)=116.67`. -/
def round2 (q : ℚ) : ℚ :=
  ((⌊q * 100 + 1 / 2⌋ : ℤ) : ℚ) / 100

/-- Modelled from the spec, §3: the training-status enum
`{undertrained, optimal, high_volume}` of a muscle group. -/
inductive TrainingStatus where
  | undertrained
  | optimal
  | high_volume
deriving DecidableEq

/-- Lower bound of the "optimal" weekly-set band (§8: "a 6–12 band"). -/
def optimalBandLow : Nat := 6

/-- Upper bound of the "optimal" weekly-set band. -/
def optimalBandHigh : Nat := 12

/-- Modelled from the spec, §4.2: "Muscle-level weekly set counts compare
against fixed band thresholds to assign training status" — below the
optimal band is `undertrained`, inside it `optimal`, above it
`high_volume`. -/
def trainingStatus (weeklySets : Nat) : TrainingStatus :=
  if weeklySets < optimalBandLow then .undertrained
  else if weeklySets ≤ optimalBandHigh then .optimal
  else .high_volume

/-- The exercise-to-muscle-group taxonomy documented in the `agentic`
README ("Supported Exercises", mapped in `src/config.py`). -/
def muscleMap : List (String × String) :=
  [("Bench Press", "Chest"), ("Incline Fly", "Chest"), ("Chest Fly", "Chest"),
   ("Bicep Curl", "Arms"), ("Reverse Curl", "Arms"),
   ("Triceps Pushdown", "Arms"), ("Triceps Extension", "Arms"),
   ("Lat Pulldown (Close Grip)", "Back"), ("Lat Pulldown (Wide Grip)", "Back"),
   ("Shoulder Press", "Shoulders"), ("Shrug", "Shoulders"),
   ("Squat", "Legs"), ("Deadlift", "Legs"), ("Romanian Deadlift", "Legs")]

/-- Muscle group of an exercise name; unmapped names fall into the
"unclassified" bucket (§4.2). -/
def lookupMuscle (name : String) : String :=
  ((muscleMap.find? (fun p => p.1 == name)).map Prod.snd).getD "unclassified"

/-- Modelled from the spec, §3: per-exercise derived statistics — name,
muscle group, total volume, best set (weight×reps), estimated 1RM.  The
short-term trend of §3 is not modelled (no claim depends on it and the
spec gives no formula for its slope or session grouping). -/
structure ExerciseStat where
  name : String
  muscle : String
  totalVolume : ℚ
  bestSet : ℚ
  est1RM : ℚ
deriving DecidableEq

/-- Modelled from the spec, §3: per-muscle derived statistics. The whole
upload is treated as one week's worth of history for the weekly set
count (the spec gives no formula for deriving weeks from timestamps). -/
structure MuscleStat where
  muscle : String
  weeklySets : Nat
  status : TrainingStatus
deriving DecidableEq

/-- Modelled from the spec, §3: a `Profile` owns the collections of
`ExerciseStat` and `MuscleStat` plus global push/pull and upper/lower
volume sums ("simple sums-of-sums", §4.2). -/
structure Profile where
  exercises : List ExerciseStat
  muscles : List MuscleStat
  pushVolume : ℚ
  pullVolume : ℚ
  upperVolume : ℚ
  lowerVolume : ℚ
deriving DecidableEq

/-- Distinct values of `f` over a list, in order of first appearance. -/
def distinctsBy (f : WorkoutSet → String) (sets : List WorkoutSet) : List String :=
  sets.foldl (fun acc s => if acc.contains (f s) then acc else acc ++ [f s]) []

/-- Volume of a single set: weight × reps. -/
def setVolume (s : WorkoutSet) : ℚ := s.weight * (s.reps : ℚ)

/-- Largest element of a list of rationals, `0` for the empty list. -/
def listMaxD (l : List ℚ) : ℚ := l.foldl max 0

/-- Modelled from the spec, §4.2: statistics of one exercise — "total
volume = Σ(weight×reps) over all sets; personal record = max single-set
weight×reps; estimated 1RM via `weight × (1 + reps/30)`" (taken as the
best single-set estimate). -/
def exerciseStatFor (sets : List WorkoutSet) (name : String) : ExerciseStat :=
  let ss := sets.filter (fun s => s.exercise == name)
  { name := name
    muscle := lookupMuscle name
    totalVolume := (ss.map setVolume).sum
    bestSet := listMaxD (ss.map setVolume)
    est1RM := listMaxD (ss.map (fun s => est1RM s.weight s.reps)) }

/-- Modelled from the spec, §4.2: per-muscle set count and its
training-status classification. -/
def muscleStatFor (sets : List WorkoutSet) (muscle : String) : MuscleStat :=
  let cnt := (sets.filter (fun s => lookupMuscle s.exercise == muscle)).length
  { muscle := muscle, weeklySets := cnt, status := trainingStatus cnt }

/-- Total volume of the sets whose muscle group lies in `groups`. -/
def volumeOf (sets : List WorkoutSet) (groups : List String) : ℚ :=
  ((sets.filter (fun s => groups.contains (lookupMuscle s.exercise))).map
    setVolume).sum

/-- Modelled from the spec, §4.2: the profile aggregator. Derived
wholesale from the normalized records; empty input yields an empty
profile, not a failure. -/
def aggregate (sets : List WorkoutSet) : Profile :=
  { exercises := (distinctsBy (·.exercise) sets).map (exerciseStatFor sets)
    muscles := (distinctsBy (fun s => lookupMuscle s.exercise) sets).map
      (muscleStatFor sets)
    pushVolume := volumeOf sets ["Chest", "Shoulders"]
    pullVolume := volumeOf sets ["Back", "Arms"]
    upperVolume := volumeOf sets ["Chest", "Shoulders", "Back", "Arms"]
    lowerVolume := volumeOf sets ["Legs"] }

/-- Modelled from the spec: profile generation end to end — normalize the
CSV, then aggregate the parsed records ("CSV → normalized records →
aggregated profile", §2). -/
def generateProfile (csv : CSV) : Except NormalizeError Profile :=
  (normalizeCSV csv).map (fun p => aggregate p.1)

/-- The per-user profile store (§3: "one profile per user, fully replaced
on each re-upload"). -/
structure BackendState where
  profiles : List (String × Profile)
deriving DecidableEq

/-- Replace (or insert) a user's stored profile. -/
def putProfile (st : BackendState) (userId : String) (p : Profile) : BackendState :=
  ⟨(userId, p) :: st.profiles.filter (fun q => q.1 != userId)⟩

/-- Modelled from the spec: the upload operation — regenerate the profile
from the CSV alone and overwrite the stored one ("fully replaced on each
re-upload (no merge semantics)", §3; "last-write-wins per user", §5). -/
def uploadProfile (userId : String) (csv : CSV) (st : BackendState) :
    BackendState × Except NormalizeError Profile :=
  match generateProfile csv with
  | .error e => (st, .error e)
  | .ok p => (putProfile st userId p, .ok p)

/-! ## Agentic pipeline: intent classification (modelled from the spec)

The Python sources `agentic/src/intent_classifier.py` / `router.py` are
not in this tree; the pipeline below is modelled from the spec, §4.3. -/

/-- Modelled from the spec, §4.3: the closed intent enum
`{ROUTINE_GENERATION, REASONING}`. -/
inductive Intent where
  | ROUTINE_GENERATION
  | REASONING
deriving DecidableEq

/-- Outcome of one call to the language-model collaborator: either its
answer or a failure of the call (`ModelUnavailable` in the taxonomy of
§7). -/
inductive ModelCall (α : Type) where
  | ok (answer : α)
  | failed
deriving DecidableEq

/-- Modelled from the spec, §4.3: intent classification with fallback —
"failure of the classification call degrades to a default intent
(REASONING) rather than aborting". -/
def classifyIntent (outcome : ModelCall Intent) : Intent :=
  match outcome with
  | .ok i => i
  | .failed => .REASONING

/-- Result of one chat turn: a structured routine or a text advice
response (§6: "an Advice-or-Routine result out"). -/
inductive ChatResult where
  | routine (routineJson : String)
  | advice (text : String)
deriving DecidableEq

/-- Modelled from the spec, §4.3: one chat turn — route on the classified
intent; the generated routine JSON and the advice text are the answers of
the downstream generation calls, passed in here already composed. Total:
no error path reaches the caller. -/
def handleChatTurn (classification : ModelCall Intent)
    (routineAnswer adviceAnswer : String) : ChatResult :=
  match classifyIntent classification with
  | .ROUTINE_GENERATION => .routine routineAnswer
  | .REASONING => .advice adviceAnswer

/-! ## Agentic pipeline: feedback resolver (modelled from the spec)

Modelled from the spec, §4.4 (the resolver's Python source is not in
this tree). The spec fixes: five most recent candidates, a recency score
with exponential decay by session index, a lexical/slot overlap score,
and selection of the top candidate exactly when it clears a fixed margin
over the runner-up, else a clarification request. The claims fix the
margin at `0.2`; the decay base and the combination of the two score
components are modelling choices the spec leaves open. -/

/-- Modelled from the spec, §3: a `RoutineCandidate` — "id, creation
time, goal, target muscles/exercises — used only for feedback-resolution
scoring". -/
structure RoutineCandidate where
  id : String
  createdAt : String
  goal : String
  targetMuscles : List String
  targetExercises : List String
deriving DecidableEq

/-- Modelled from the spec, §4.4 / §8: the fixed selection margin, `0.2`. -/
def feedbackMargin : ℚ := 1 / 5

/-- Result of feedback resolution: the index of the selected candidate,
or a clarification request instead of a guess (`AmbiguousFeedback` in the
taxonomy of §7). -/
inductive Resolution where
  | selected (index : Nat)
  | clarify
deriving DecidableEq

/-- Whitespace tokenization of a free-text string. -/
def tokenize (s : String) : List String :=
  (s.data.splitOn ' ').filterMap
    (fun cs => if cs.isEmpty then none else some (String.mk cs))

/-- Count of words of `ws` occurring in the feedback tokens. -/
def overlapCount (feedback ws : List String) : Nat :=
  (ws.filter (fun w => feedback.contains w)).length

/-- Modelled from the spec, §4.4: recency score with "exponential decay
by session index" (most recent candidate has index 0; decay base 1/2 is
a modelling choice). -/
def recencyScore (sessionIndex : Nat) : ℚ := (1 / 2) ^ sessionIndex

/-- Modelled from the spec, §4.4: "lexical/slot overlap with the feedback
text" — the fraction of the candidate's slot words (goal, target muscles,
target exercises) that occur in the feedback. -/
def overlapScore (feedback : List String) (c : RoutineCandidate) : ℚ :=
  let ws := tokenize c.goal ++ c.targetMuscles ++ c.targetExercises
  (overlapCount feedback ws : ℚ) / ((ws.length : ℚ) + 1)

/-- Modelled from the spec, §4.4: a candidate's score at position
`sessionIndex` in the recency ordering — recency plus overlap. -/
def candidateScore (feedback : List String) (sessionIndex : Nat)
    (c : RoutineCandidate) : ℚ :=
  recencyScore sessionIndex + overlapScore feedback c

/-- First maximum of a score list together with its index. -/
def bestWithIdx (scores : List ℚ) : Option (Nat × ℚ) :=
  scores.enum.foldl
    (fun acc p =>
      match acc with
      | none => some p
      | some q => if p.2 > q.2 then some p else some q)
    none

/-- Largest element of a score list, if any. -/
def listMax : List ℚ → Option ℚ
  | [] => none
  | x :: xs => some (xs.foldl max x)

/-- Modelled from the spec, §4.4: "picks the highest score if it clears a
fixed margin over the runner-up, else emits a clarification request
instead of guessing". -/
def selectByMargin (scores : List ℚ) : Resolution :=
  match bestWithIdx scores with
  | none => .clarify
  | some (i, best) =>
    match listMax (scores.eraseIdx i) with
    | none => .selected i
    | some second =>
      if best - second ≥ feedbackMargin then .selected i else .clarify

/-- Modelled from the spec, §4.4: resolve free-text feedback against "the
five most recent RoutineCandidates for the user" (the list is assumed
ordered most recent first; its position is the session index). -/
def resolveFeedback (feedback : String) (cands : List RoutineCandidate) :
    Resolution :=
  let recent := cands.take 5
  let fb := tokenize feedback
  selectByMargin (recent.enum.map (fun p => candidateScore fb p.1 p.2))

/-! ## Helper lemmas -/

/-- Parsed and skipped rows of a list partition it. -/
theorem length_filterMap_add_none {α β : Type} (f : α → Option β) (l : List α) :
    (l.filterMap f).length + (l.filter (fun a => (f a).isNone)).length = l.length := by
  induction l with
  | nil => simp
  | cons a l ih =>
    cases h : f a <;>
      simp [List.filterMap_cons, h, List.filter_cons, ← ih] <;> omega

/-- The module-level counter equals the number of calls made so far. -/
theorem replyIndexAfter_eq (k : Nat) : replyIndexAfter k = k := by
  induction k with
  | zero => rfl
  | succ n ih => simp [replyIndexAfter, getMockReply, ih]

/-- Two-candidate behaviour of the margin rule when the first score is
the larger one. -/
theorem selectByMargin_pair (a b : ℚ) (h : b < a) :
    selectByMargin [a, b] =
      if feedbackMargin ≤ a - b then .selected 0 else .clarify := by
  have hba : ¬ (b > a) := not_lt.2 h.le
  simp [selectByMargin, bestWithIdx, listMax, List.enum, hba, ge_iff_le]

/-! ## Claims -/

/-- C5: if the intent-classification call fails, the pipeline does not
raise: it falls back to the default intent `REASONING` and the chat turn
still returns an advice response, whatever the query's downstream
answers are. -/
theorem classificationFailure_fallsBackToAdvice
    (routineAnswer adviceAnswer : String) :
    classifyIntent .failed = .REASONING ∧
    handleChatTurn .failed routineAnswer adviceAnswer = .advice adviceAnswer :=
  ⟨rfl, rfl⟩

/-- C6: training status is assigned from the weekly set count by fixed
band thresholds into `{undertrained, optimal, high_volume}`: strictly
below the 6–12 optimal band is `undertrained`, inside it `optimal`,
above it `high_volume`; and the aggregator's `MuscleStat` carries
exactly this classification of its weekly set count. -/
theorem trainingStatus_bands (n : Nat) :
    (n < optimalBandLow → trainingStatus n = .undertrained) ∧
    (optimalBandLow ≤ n → n ≤ optimalBandHigh → trainingStatus n = .optimal) ∧
    (optimalBandHigh < n → trainingStatus n = .high_volume) ∧
    (∀ sets muscle, (muscleStatFor sets muscle).status =
      trainingStatus ((muscleStatFor sets muscle).weeklySets)) := by
  refine ⟨fun h => ?_, fun h1 h2 => ?_, fun h => ?_, fun sets muscle => rfl⟩
  · simp [trainingStatus, h]
  · have : ¬ n < optimalBandLow := by omega
    simp [trainingStatus, this, h2]
  · have h1 : ¬ n < optimalBandLow := by
      simp [optimalBandLow, optimalBandHigh] at h ⊢; omega
    have h2 : ¬ n ≤ optimalBandHigh := by omega
    simp [trainingStatus, h1, h2]

/-- Witness for C6: 4 weekly sets lie strictly below the 6-set lower
bound and are classified `undertrained`. -/
theorem trainingStatus_bands_witness :
    4 < optimalBandLow ∧ trainingStatus 4 = .undertrained :=
  ⟨by decide, (trainingStatus_bands 4).1 (by decide)⟩

/-- C8: `getRoutine` distinguishes authentication failures at its public
interface — status 401 or 403 throws `Error("auth")`; any other non-ok
status returns `null` instead of throwing; an ok status returns the
routine object of the response body. -/
theorem getRoutine_status_cases (res : HttpResponse) :
    ((res.status = 401 ∨ res.status = 403) → getRoutine res = .thrown "auth") ∧
    (res.status ≠ 401 → res.status ≠ 403 → respOk res.status = false →
      getRoutine res = .ok none) ∧
    (respOk res.status = true → getRoutine res = .ok res.routineBody) := by
  refine ⟨fun h => ?_, fun h1 h2 h3 => ?_, fun h => ?_⟩
  · rcases h with h | h <;> simp [getRoutine, h]
  · simp [getRoutine, h1, h2, h3]
  · have hb := h
    simp only [respOk, Bool.and_eq_true, decide_eq_true_eq] at hb
    have h1 : res.status ≠ 401 := by omega
    have h2 : res.status ≠ 403 := by omega
    simp [getRoutine, h1, h2, h]

/-- Witness for C8: status 401 throws, status 404 returns `null`, and
status 200 returns the body's routine object. -/
theorem getRoutine_status_cases_witness :
    ((401 = 401 ∨ 401 = 403) ∧
      getRoutine ⟨401, some "r"⟩ = .thrown "auth") ∧
    (404 ≠ 401 ∧ 404 ≠ 403 ∧ respOk 404 = false ∧
      getRoutine ⟨404, some "r"⟩ = .ok none) ∧
    (respOk 200 = true ∧ getRoutine ⟨200, some "r"⟩ = .ok (some "r")) :=
  ⟨⟨Or.inl rfl, (getRoutine_status_cases ⟨401, some "r"⟩).1 (Or.inl rfl)⟩,
   ⟨by decide, by decide, by decide,
    (getRoutine_status_cases ⟨404, some "r"⟩).2.1 (by decide) (by decide) (by decide)⟩,
   ⟨by decide, (getRoutine_status_cases ⟨200, some "r"⟩).2.2 (by decide)⟩⟩

/-- C9: `formatContextTitle` leaves a routine's effective title (the
title, defaulting to "Generated Routine" when empty) unchanged whenever
it occurs at most once in the loaded routine list, and appends the
focus-muscles / days-per-week / creation-date suffix exactly when the
title occurs more than once. -/
theorem formatContextTitle_disambiguates (fmtDate : String → String)
    (routines : List RoutineSummary) (r : RoutineSummary) :
    (titleCount routines (effectiveTitle r) ≤ 1 →
      formatContextTitle fmtDate routines r = effectiveTitle r) ∧
    (1 < titleCount routines (effectiveTitle r) →
      formatContextTitle fmtDate routines r =
        effectiveTitle r ++ " · " ++ musclesLabel r ++ " · " ++ daysLabel r
          ++ " · " ++ fmtDate r.created_at) := by
  constructor
  · intro h
    simp [formatContextTitle, h]
  · intro h
    have h' : ¬ titleCount routines (effectiveTitle r) ≤ 1 := by omega
    simp [formatContextTitle, h']

/-- Witness for C9: a uniquely titled routine keeps its title; a
duplicated title gets the disambiguating suffix. -/
theorem formatContextTitle_disambiguates_witness :
    (titleCount [⟨"1", "d1", "A", "g", none, none⟩]
        (effectiveTitle ⟨"1", "d1", "A", "g", none, none⟩) ≤ 1 ∧
      formatContextTitle (fun _ => "D") [⟨"1", "d1", "A", "g", none, none⟩]
        ⟨"1", "d1", "A", "g", none, none⟩ =
        effectiveTitle ⟨"1", "d1", "A", "g", none, none⟩) ∧
    (1 < titleCount [⟨"1", "d1", "A", "g", none, none⟩,
        ⟨"2", "d2", "A", "g", none, none⟩]
        (effectiveTitle ⟨"1", "d1", "A", "g", none, none⟩) ∧
      formatContextTitle (fun _ => "D") [⟨"1", "d1", "A", "g", none, none⟩,
        ⟨"2", "d2", "A", "g", none, none⟩] ⟨"1", "d1", "A", "g", none, none⟩ =
        effectiveTitle ⟨"1", "d1", "A", "g", none, none⟩ ++ " · " ++
          musclesLabel ⟨"1", "d1", "A", "g", none, none⟩ ++ " · " ++
          daysLabel ⟨"1", "d1", "A", "g", none, none⟩ ++ " · " ++ "D") :=
  ⟨⟨by decide,
    (formatContextTitle_disambiguates (fun _ => "D") _ _).1 (by decide)⟩,
   ⟨by decide,
    (formatContextTitle_disambiguates (fun _ => "D") _ _).2 (by decide)⟩⟩

/-- C10: `getMockReply` never rejects (each call resolves), and the k-th
call since module load resolves to `mockReplies[(k−1) mod 4]`: the four
canned replies cycle deterministically in order. -/
theorem getMockReply_cycles (k : Nat) (hk : 1 ≤ k) :
    mockReplies.length = 4 ∧
    nthMockReply k = mockReplies.getD ((k - 1) % 4) "" ∧
    nthMockReply (k + 4) = nthMockReply k := by
  have hlen : mockReplies.length = 4 := rfl
  refine ⟨hlen, ?_, ?_⟩
  · simp [nthMockReply, getMockReply, replyIndexAfter_eq, hlen]
  · simp only [nthMockReply, getMockReply, replyIndexAfter_eq, hlen]
    congr 1
    omega

/-- Witness for C10: the sixth call resolves to `mockReplies[1]`. -/
theorem getMockReply_cycles_witness :
    1 ≤ 6 ∧ nthMockReply 6 = mockReplies.getD ((6 - 1) % 4) "" :=
  ⟨by decide, (getMockReply_cycles 6 (by decide)).2.1⟩

/-- C1: profile generation is deterministic and idempotent — the profile
an upload produces depends only on the CSV, never on the stored state
left by earlier uploads, and re-running the upload on the same CSV
reproduces the same output. -/
theorem profileGeneration_deterministic (userId : String) (csv : CSV)
    (st1 st2 : BackendState) :
    (uploadProfile userId csv st1).2 = (uploadProfile userId csv st2).2 ∧
    (uploadProfile userId csv (uploadProfile userId csv st1).1).2 =
      (uploadProfile userId csv st1).2 := by
  cases h : generateProfile csv <;> simp [uploadProfile, h]

/-- C2: a CSV whose header is missing the required `reps` column makes
the normalizer fail with `MalformedInput` (reporting `reps` among the
missing columns) and produce no partial output. -/
theorem missingReps_malformedInput (csv : CSV)
    (h : ¬ csv.header.contains "reps") :
    ∃ ms, normalizeCSV csv = .error (.MalformedInput ms) ∧ "reps" ∈ ms := by
  have hm : "reps" ∈ missingColumns csv.header := by
    simp [missingColumns, requiredColumns, List.mem_filter]
    simpa using h
  rcases hcons : missingColumns csv.header with _ | ⟨m, ms⟩
  · rw [hcons] at hm
    simp at hm
  · exact ⟨m :: ms, by unfold normalizeCSV; rw [hcons], hcons ▸ hm⟩

/-- Witness for C2: a header with every required column except `reps`
yields `MalformedInput`. -/
theorem missingReps_malformedInput_witness :
    ¬ (["exercise_title", "start_time", "end_time", "weight_kg",
        "set_index"] : List String).contains "reps" ∧
    ∃ ms, normalizeCSV ⟨["exercise_title", "start_time", "end_time",
        "weight_kg", "set_index"],
        [["Bench Press", "t0", "t1", "100", "1"]]⟩ =
      .error (.MalformedInput ms) ∧ "reps" ∈ ms :=
  ⟨by decide, missingReps_malformedInput _ (by decide)⟩

/-- C3: the estimated one-rep-max of a set is `weight × (1 + reps/30)`
(and this formula is what the aggregator's per-exercise statistic
maximises over); for weight 100 and reps 5 it is `350/3`, whose
two-decimal rendering is `116.67`. -/
theorem est1RM_formula :
    (∀ s : WorkoutSet, est1RM s.weight s.reps = s.weight * (1 + (s.reps : ℚ) / 30)) ∧
    est1RM 100 5 = 350 / 3 ∧
    round2 (est1RM 100 5) = 11667 / 100 ∧
    (∀ sets name, (exerciseStatFor sets name).est1RM =
      listMaxD ((sets.filter (fun s => s.exercise == name)).map
        (fun s => est1RM s.weight s.reps))) := by
  have h350 : est1RM 100 5 = 350 / 3 := by norm_num [est1RM]
  refine ⟨fun s => rfl, h350, ?_, fun sets name => rfl⟩
  have hf : ⌊(350 : ℚ) / 3 * 100 + 1 / 2⌋ = 11667 := by
    rw [Int.floor_eq_iff]
    norm_num
  rw [round2, h350, hf]
  norm_num

/-- C4: feedback resolution scores the (at most) five most recent
candidates, selects the top-scoring candidate exactly when its score
clears the runner-up's by the fixed margin `0.2`, and otherwise returns
a clarification request; scores 0.9 vs 0.55 select the first candidate,
scores 0.7 vs 0.68 yield a clarification request. -/
theorem feedbackResolution_margin (feedback : String)
    (cands : List RoutineCandidate) (a b : ℚ) (h : b < a) :
    resolveFeedback feedback cands =
      selectByMargin ((cands.take 5).enum.map
        (fun p => candidateScore (tokenize feedback) p.1 p.2)) ∧
    (selectByMargin [a, b] = .selected 0 ↔ feedbackMargin ≤ a - b) ∧
    selectByMargin [9/10, 11/20] = .selected 0 ∧
    selectByMargin [7/10, 17/25] = .clarify := by
  refine ⟨rfl, ?_, ?_, ?_⟩
  · rw [selectByMargin_pair a b h]
    constructor
    · intro he
      by_contra hc
      rw [if_neg hc] at he
      exact Resolution.noConfusion he
    · intro hc
      rw [if_pos hc]
  · rw [selectByMargin_pair _ _ (by norm_num)]
    norm_num [feedbackMargin]
  · rw [selectByMargin_pair _ _ (by norm_num)]
    norm_num [feedbackMargin]

/-- Witness for C4: with scores 1 and 0 the margin is cleared and the
top candidate is selected. -/
theorem feedbackResolution_margin_witness :
    (0 : ℚ) < 1 ∧ (selectByMargin [1, 0] = .selected 0 ↔ feedbackMargin ≤ 1 - 0) :=
  ⟨zero_lt_one, (feedbackResolution_margin "" [] 1 0 zero_lt_one).2.1⟩

/-- C7: when every required column is present the normalizer succeeds:
unparseable rows are skipped (their count is reported), the remaining
rows become the parsed records, and parsed plus skipped rows account for
the whole input — no fatal error is raised for bad rows. -/
theorem partialParse_policy (csv : CSV)
    (h : ∀ c ∈ requiredColumns, csv.header.contains c) :
    ∃ recs skipped,
      normalizeCSV csv = .ok (recs, skipped) ∧
      recs = csv.rows.filterMap (parseRow csv.header) ∧
      skipped = (csv.rows.filter
        (fun r => (parseRow csv.header r).isNone)).length ∧
      recs.length + skipped = csv.rows.length := by
  have hmc : missingColumns csv.header = [] := by
    rw [missingColumns, List.filter_eq_nil_iff]
    intro c hc
    simpa using h c hc
  refine ⟨_, _, by unfold normalizeCSV; rw [hmc], rfl, rfl, ?_⟩
  exact length_filterMap_add_none (parseRow csv.header) csv.rows

/-- Witness for C7: a two-row CSV with one parseable row and one row
with non-numeric weight and reps parses without a fatal error. -/
theorem partialParse_policy_witness :
    (∀ c ∈ requiredColumns,
      (["exercise_title", "start_time", "end_time", "weight_kg", "reps",
        "set_index"] : List String).contains c) ∧
    ∃ recs skipped,
      normalizeCSV ⟨["exercise_title", "start_time", "end_time",
          "weight_kg", "reps", "set_index"],
        [["Bench Press", "t0", "t1", "100", "5", "1"],
         ["Squat", "t0", "t1", "heavy", "x", "1"]]⟩ = .ok (recs, skipped) ∧
      recs = ([["Bench Press", "t0", "t1", "100", "5", "1"],
         ["Squat", "t0", "t1", "heavy", "x", "1"]] : List (List String)).filterMap
        (parseRow ["exercise_title", "start_time", "end_time", "weight_kg",
          "reps", "set_index"]) ∧
      skipped = (([["Bench Press", "t0", "t1", "100", "5", "1"],
         ["Squat", "t0", "t1", "heavy", "x", "1"]] : List (List String)).filter
        (fun r => (parseRow ["exercise_title", "start_time", "end_time",
          "weight_kg", "reps", "set_index"] r).isNone)).length ∧
      recs.length + skipped = 2 :=
  ⟨by decide, partialParse_policy _ (by decide)⟩

end Repsense
